import Mathlib

/-!
Verification of the InstalingPy scheduler/control-plane subsystem.

A shallow embedding of the scheduler and rcon command handlers of
`scheduled.py` and `libs/rcon.py`, together with theorems settling the
frozen specification claims.

Modelling conventions:
* Instants (`datetime.datetime`) are natural numbers of microseconds since
  the epoch; times of day (`datetime.time`) are microseconds since local
  midnight.  The model fixes a timezone in which the epoch falls at local
  midnight, so `dt.time()` is `dt % day_us` and `date.today()` combined with
  a time `t` at instant `now` is `midnightOf now + t`.
* Python's `ts.timestamp()` followed by `int(...)` truncates to whole
  seconds; for the non-negative instants of this program that is floor
  division by `usPerSec`.
* `random.randint(a, b)` is modelled by `randint a b r` where `r` is an
  oracle draw: the result is `a + r % (b - a + 1)` (always in `[a, b]`),
  and a `ValueError` (empty range, `a > b`) is `.error ()`.
* `asyncio.Task` handles are values of `TaskId`; `task = none` models
  `task is None`.  Awaiting a task is modelled by the state its body leaves
  behind (see `SolverProfile.cancel_task` and `scheduleStep`).
* Fields of `SolverProfile` that are opaque to every scheduling decision in
  the verified claims (`username`, `password`, `user_agent`, `timeout`,
  `retries`, `retry_wait`, `solver_config`) are not represented; every field
  the scheduler or a command handler reads or writes is.
* Webhook/logger notifications are modelled as `Note` values where a claim
  refers to them (the scheduling pass); handlers whose claims do not
  mention notification content omit them.
-/

/-- Microseconds per second (`int(timestamp)` truncates at this unit). -/
def usPerSec : Nat := 1000000

/-- Microseconds per day. -/
def day_us : Nat := 86400000000

/-- Value of `Scheduler.schedule_every = timedelta(minutes=15)`, in microseconds
(as an `Int`, because Python `datetime` subtraction may be negative). -/
def schedule_every_us : Int := 900000000

/-- Python `datetime.now().replace(hour=0, minute=0, second=0, microsecond=0)`:
the local midnight preceding `now`. -/
def midnightOf (now : Nat) : Nat := now - now % day_us

/-- Python `dt.time()`: the time-of-day component of an instant. -/
def timeOfDay (dt : Nat) : Nat := dt % day_us

/-- Python `random.randint(a, b)` with an oracle draw `r`: an arbitrary integer in
the inclusive range `[a, b]`, or a `ValueError` when the range is empty. -/
def randint (a b r : Nat) : Except Unit Nat :=
  if a ≤ b then .ok (a + r % (b - a + 1)) else .error ()

/-- Decidable equality for `Except`, used to evaluate fallible operations
on concrete inputs. -/
instance {ε α : Type} [DecidableEq ε] [DecidableEq α] : DecidableEq (Except ε α) := fun x y =>
  match x, y with
  | .ok a, .ok b =>
    if h : a = b then isTrue (by rw [h]) else isFalse (by intro hc; cases hc; exact h rfl)
  | .error a, .error b =>
    if h : a = b then isTrue (by rw [h]) else isFalse (by intro hc; cases hc; exact h rfl)
  | .ok _, .error _ => isFalse (by intro hc; cases hc)
  | .error _, .ok _ => isFalse (by intro hc; cases hc)

/-- Dataclass `RunTimes` (scheduled.py): a profile's daily run window,
start and end times of day.  (`end` is spelled `«end»` because it is a Lean
keyword.) -/
structure RunTimes where
  start : Nat
  «end» : Nat
deriving DecidableEq, Repr

/-- An `asyncio.Task` handle: either a solver task created by
`Scheduler.start_solver_task`, or a migrator task created by
`RconReloadCommand.profile_migrator` wrapping the task it awaits. -/
inductive TaskId where
  | solver (id : Nat)
  | migrator (inner : TaskId)
deriving DecidableEq, Repr

/-- Dataclass `SolverProfile` (scheduled.py), restricted to the fields
the scheduler and command handlers read or write (see module docstring for
the omitted opaque credential/session fields). -/
structure SolverProfile where
  profile_name : String
  run_times : RunTimes
  last_run : Nat
  next_run : Option Nat
  task : Option TaskId
  running : Bool
  last_log : Option String
deriving DecidableEq, Repr

/-- Method `SolverProfile.cancel_task` (scheduled.py lines 43-50): if no task
handle is present, return immediately (no field is touched); otherwise
cancel the task, await it (suppressing `CancelledError`), then set
`task = None` and `running = False`.

Awaiting the cancelled task is modelled only through the final overwrite of
`task`/`running` at lines 49-50: a task cancelled in its pre-start sleep
mutates no other profile field before unwinding, and the claims about
`cancel_task` concern only `task` and `running`. -/
def SolverProfile.cancel_task (p : SolverProfile) : SolverProfile :=
  match p.task with
  | none => p
  | some _ => { p with task := none, running := false }

/-- Method `SolverProfile.reschedule` (scheduled.py lines 69-74): combine today
with the window start/end, truncate both timestamps to whole seconds with
`int(...)`, draw `random.randint` between them, and store the drawn instant
(whole seconds, hence `* usPerSec`) into `next_run`.  Returns the updated
profile and the stored instant; `.error ()` models the `ValueError` raised
by `randint` on an empty range. -/
def SolverProfile.reschedule (p : SolverProfile) (now r : Nat) :
    Except Unit (SolverProfile × Nat) :=
  let ts_min := midnightOf now + p.run_times.start
  let ts_max := midnightOf now + p.run_times.«end»
  (randint (ts_min / usPerSec) (ts_max / usPerSec) r).map fun s =>
    ({ p with next_run := some (s * usPerSec) }, s * usPerSec)

/-- Method `Scheduler.start_solver_task` (scheduled.py lines 185-189): a no-op
when a task handle is already present, otherwise install a fresh solver
task handle. -/
def start_solver_task (p : SolverProfile) (tid : Nat) : SolverProfile :=
  if p.task.isSome then p else { p with task := some (TaskId.solver tid) }

/-- The scheduler's profile map (`dict[str, SolverProfile]`), as an
insertion-ordered association list. -/
abbrev Profiles := List (String × SolverProfile)

/-- Dictionary lookup (`profiles.get(name)` / `name in profiles`). -/
def lookupP : Profiles → String → Option SolverProfile
  | [], _ => none
  | (n, p) :: tl, name => if n = name then some p else lookupP tl name

/-- In-place mutation of the profile object stored under `name`. -/
def updateP (ps : Profiles) (name : String) (p : SolverProfile) : Profiles :=
  ps.map fun np => if np.1 = name then (np.1, p) else np

/-- Like `lookupP` but returning the whole entry (used only to reason
about maps over the profile list). -/
def findE : Profiles → String → Option (String × SolverProfile)
  | [], _ => none
  | np :: tl, n => if np.1 = n then some np else findE tl n

/-- The rcon responses a command handler can produce (`libs/rcon.py`).
The correlation token (`nonce`) is echoed verbatim by every handler and is
not represented.  `error` carries `command_type`, `error` and optional
`detail`, as `RconErrorResponse`. -/
inductive Response where
  | success (command_type : String)
  | error (command_type : String) (error : String) (detail : Option String)
  | profileRescheduled (profile : String) (new_time : Nat)
  | reloadComplete (new_profiles updated_profiles removed_profiles deferred_profiles : List String)
deriving DecidableEq, Repr

/-- The `removed_profiles` list of a reload response (empty for others). -/
def Response.removedOf : Response → List String
  | .reloadComplete _ _ r _ => r
  | _ => []

/-- The `deferred_profiles` list of a reload response (empty for others). -/
def Response.deferredOf : Response → List String
  | .reloadComplete _ _ _ d => d
  | _ => []

/-- The `new_time` argument of the reschedule command:
`datetime.datetime | datetime.time | None` (`auto` is `None`). -/
inductive NewTime where
  | auto
  | atDT (dt : Nat)
  | atTOD (t : Nat)
deriving DecidableEq, Repr

/-- The `isinstance(self.new_time, datetime.time)` normalisation of the
reschedule command (rcon.py lines 184-185): a bare time of day is combined
with today's date; a datetime is kept; `None` stays `None`. -/
def NewTime.toAbsolute (newTime : NewTime) (now : Nat) : Option Nat :=
  match newTime with
  | .auto => none
  | .atDT dt => some dt
  | .atTOD t => some (midnightOf now + t)

/-- The tail of `RconRescheduleCommand.process` (rcon.py lines 194-204)
once a new `next_run` has been stored in `p`: read `next_run` back, cancel
any existing task, start a new solver task when the new time is within one
scheduling interval of now, and answer `profile_rescheduled`. -/
def rescheduleFinish (ps : Profiles) (name : String) (p : SolverProfile)
    (now tid : Nat) : Profiles × Response :=
  let next_run := p.next_run.getD 0
  let p := if p.task.isSome then p.cancel_task else p
  let p := if (next_run : Int) - now < schedule_every_us then start_solver_task p tid else p
  (updateP ps name p, .profileRescheduled name next_run)

/-- Handler `RconRescheduleCommand.process` (rcon.py lines 177-204).  `r` is the
oracle draw for `SolverProfile.reschedule`, `tid` the id of a task created
by `start_solver_task`.  Both occurrences of `datetime.datetime.now()` in
the handler are modelled as the single instant `now`.  `.error ()` models
an exception escaping the handler (empty `randint` range). -/
def rescheduleProcess (ps : Profiles) (name : String) (newTime : NewTime)
    (now r tid : Nat) : Except Unit (Profiles × Response) :=
  match lookupP ps name with
  | none => .ok (ps, .error "reschedule" ("Profile " ++ name ++ " not found") none)
  | some p =>
    if p.task.isSome ∧ p.running then
      .ok (ps, .error "reschedule" "Cannot reschedule a running profile" none)
    else
      match newTime.toAbsolute now with
      | none =>
        if p.run_times.«end» < timeOfDay now then
          .ok (ps, .error "reschedule" "Automatic rescheduling failed - past profile max start time!" none)
        else
          (p.reschedule now r).map fun pr => rescheduleFinish ps name pr.1 now tid
      | some dt =>
        if dt < now then
          .ok (ps, .error "reschedule" "New scheduled time cannot be in the past!" none)
        else
          .ok (rescheduleFinish ps name { p with next_run := some dt } now tid)

/-- Handler `RconRunNowCommand.process` (rcon.py lines 237-254): error if the
profile is unknown or has a running task; otherwise set `next_run = now`,
cancel any stale handle, launch immediately, answer success. -/
def runNowProcess (ps : Profiles) (name : String) (now tid : Nat) :
    Profiles × Response :=
  match lookupP ps name with
  | none => (ps, .error "run_now" ("Profile " ++ name ++ " not found") none)
  | some p =>
    if p.task.isSome ∧ p.running then
      (ps, .error "run_now" "Profile already running" none)
    else
      let p := { p with next_run := some now }
      let p := if p.task.isSome then p.cancel_task else p
      let p := start_solver_task p tid
      (updateP ps name p, .success "run_now")

/-- Logger warnings and webhook messages emitted by the scheduling pass
(`Scheduler.run`, "Schedule stuff" section). -/
inductive Note where
  | missedWindow (profile : String)
  | runningNoTask (profile : String)
  | didNotUnset (profile : String)
  | crashRecovered (profile : String)
  | scheduled (profile : String) (t : Nat)
deriving DecidableEq, Repr

/-- How `await profile.task` at scheduled.py line 151 resolves for a
running task found during the scheduling pass: the task completed (its own
teardown already set `task = None`, `running = False`; the code still warns
"did not unset"), or it raised and the pass recovers by forcibly clearing
both fields.  (A `CancelledError` surfacing from that await would propagate
out of the pass; no claim concerns it.) -/
inductive AwaitOutcome where
  | completed
  | crashed
deriving DecidableEq, Repr

/-- One profile's slice of the "Schedule stuff" section of `Scheduler.run`
(scheduled.py lines 130-172): same-day gate; missed-window skip; stale
`running`-without-task correction; running-task await with crash recovery;
and rescheduling when `next_run` is absent.  `outcome` resolves the await
of a running task, `r` is the oracle draw for `reschedule`; `.error ()`
models an exception escaping the pass (empty `randint` range). -/
def scheduleStep (p : SolverProfile) (now : Nat) (outcome : AwaitOutcome)
    (r : Nat) : Except Unit (SolverProfile × List Note) :=
  if midnightOf now ≤ p.last_run then .ok (p, [])
  else if p.next_run = none ∧ p.run_times.«end» < timeOfDay now then
    .ok ({ p with last_run := now }, [.missedWindow p.profile_name])
  else
    let step34 : SolverProfile × List Note :=
      if p.task = none ∧ p.running then
        ({ p with running := false }, [.runningNoTask p.profile_name])
      else if p.task.isSome ∧ p.running then
        match outcome with
        | .completed => ({ p with task := none, running := false }, [.didNotUnset p.profile_name])
        | .crashed => ({ p with task := none, running := false }, [.crashRecovered p.profile_name])
      else (p, [])
    let p1 := step34.1
    if p1.next_run = none then
      (p1.reschedule now r).map fun pr =>
        (pr.1, step34.2 ++ [.scheduled p1.profile_name pr.2])
    else .ok (p1, step34.2)

/-- One profile's slice of the "Run stuff" section of `Scheduler.run`
(scheduled.py lines 174-179): skip unless `next_run` is set, no task handle
exists, and `next_run` is within one scheduling interval of now; otherwise
set `last_run = now` and start the solver task. -/
def launchPass1 (p : SolverProfile) (now tid : Nat) : SolverProfile :=
  match p.next_run with
  | none => p
  | some nr =>
    if p.task.isSome ∨ (nr : Int) - now > schedule_every_us then p
    else start_solver_task { p with last_run := now } tid

/-- The statements of `Scheduler.solver_task` (scheduled.py lines
191-262), one constructor per maximal suspension-free block or awaited
call, in source order. -/
inductive Stmt where
  /-- Statement `await asyncio.sleep(to_wait)` (line 195). -/
  | awaitSleep
  /-- Statement `profile.next_run = None` (line 196). -/
  | clearNextRun
  /-- Statement `profile.last_run = datetime.datetime.now()` (line 197). -/
  | setLastRunNow
  /-- Statement `profile.running = True` (line 198). -/
  | setRunningTrue
  /-- Logger/handler setup and `profile.last_log = log_file_name`
  (lines 200-208; synchronous). -/
  | setLastLog
  /-- Statement `await self.webhook.send_message(... is starting)` (line 211;
  unguarded). -/
  | awaitNotifyStart
  /-- The `instaling.Session`/`AutoSolver` workload inside the failure
  boundary (lines 215-234): success, crash and cancellation are all caught
  there and never propagate. -/
  | awaitWorkload
  /-- Close the per-run log handler (lines 236-239; synchronous). -/
  | closeLogSink
  /-- Statement `await self.db.log_session_timing(...)` (line 243), attempted only
  when sign-in succeeded (`user_id is not None`); unguarded. -/
  | awaitPersist
  /-- Statement `await self.db.capture_wordcounts_snapshot()` (line 248; unguarded). -/
  | awaitSnapshot
  /-- Statement `await self.webhook.send_message(...)` reporting the outcome, inside
  `try/except` (lines 253-260): its failure is swallowed. -/
  | awaitNotifyOutcome
  /-- Statement `profile.task = None` (line 261). -/
  | clearTask
  /-- Statement `profile.running = False` (line 262). -/
  | setRunningFalse
deriving DecidableEq, Repr

/-- Whether a statement is a suspension point (an awaited call). -/
def Stmt.isSuspension : Stmt → Bool
  | .awaitSleep | .awaitNotifyStart | .awaitWorkload | .awaitPersist
  | .awaitSnapshot | .awaitNotifyOutcome => true
  | _ => false

/-- The body of `Scheduler.solver_task` as a straight-line statement list
in source order. -/
def solverProgram : List Stmt :=
  [.awaitSleep, .clearNextRun, .setLastRunNow, .setRunningTrue, .setLastLog,
   .awaitNotifyStart, .awaitWorkload, .closeLogSink, .awaitPersist,
   .awaitSnapshot, .awaitNotifyOutcome, .clearTask, .setRunningFalse]

/-- The environment of one `solver_task` execution: the instant the task
begins actual work, the per-run log path, whether sign-in succeeded
(`user_id is not None`), and which awaited external calls raise. -/
structure TaskEnv where
  now : Nat
  logPath : String
  signedIn : Bool
  notifyStartRaises : Bool
  persistRaises : Bool
  snapshotRaises : Bool
  notifyOutcomeRaises : Bool
deriving DecidableEq, Repr

/-- State of one `solver_task` execution: the profile's fields, the
suspension points actually attempted (in order), and whether an exception
has escaped the task. -/
structure TaskState where
  profile : SolverProfile
  attempted : List Stmt
  raised : Bool
deriving DecidableEq, Repr

/-- Execute one statement of `solver_task`.  Once an exception has escaped
(`raised`), every later statement is skipped — this is how an unguarded
raise aborts the rest of the task body.  `awaitNotifyOutcome` is the one
guarded call: its failure never sets `raised`. -/
def exec1 (env : TaskEnv) (st : TaskState) (s : Stmt) : TaskState :=
  cond st.raised st <|
    match s with
    | .awaitSleep => { st with attempted := st.attempted ++ [.awaitSleep] }
    | .clearNextRun => { st with profile := { st.profile with next_run := none } }
    | .setLastRunNow => { st with profile := { st.profile with last_run := env.now } }
    | .setRunningTrue => { st with profile := { st.profile with running := true } }
    | .setLastLog => { st with profile := { st.profile with last_log := some env.logPath } }
    | .awaitNotifyStart =>
      { st with attempted := st.attempted ++ [.awaitNotifyStart], raised := env.notifyStartRaises }
    | .awaitWorkload => { st with attempted := st.attempted ++ [.awaitWorkload] }
    | .closeLogSink => st
    | .awaitPersist =>
      if env.signedIn then
        { st with attempted := st.attempted ++ [.awaitPersist], raised := env.persistRaises }
      else st
    | .awaitSnapshot =>
      { st with attempted := st.attempted ++ [.awaitSnapshot], raised := env.snapshotRaises }
    | .awaitNotifyOutcome => { st with attempted := st.attempted ++ [.awaitNotifyOutcome] }
    | .clearTask => { st with profile := { st.profile with task := none } }
    | .setRunningFalse => { st with profile := { st.profile with running := false } }

/-- Run the whole `solver_task` body on a profile. -/
def runSolverTask (env : TaskEnv) (p : SolverProfile) : TaskState :=
  solverProgram.foldl (exec1 env) ⟨p, [], false⟩

/-- The reschedule condition of the reload handler (rcon.py lines
322-323): the profile is not running, has a `next_run`, its window is
still open now, and `next_run`'s time of day falls outside the (possibly
new) window. -/
def needsReschedule (now : Nat) (p : SolverProfile) : Bool :=
  match p.next_run with
  | none => false
  | some nr =>
    !p.running && decide (timeOfDay now < p.run_times.«end») &&
      !(decide (p.run_times.start ≤ timeOfDay nr) && decide (timeOfDay nr ≤ p.run_times.«end»))

/-- One profile's slice of the reload handler's final loop: reschedule it
when `needsReschedule` holds, otherwise leave it alone. -/
def reschedStep (now : Nat) (draws : String → Nat) (np : String × SolverProfile) :
    Except Unit (String × SolverProfile) :=
  if needsReschedule now np.2 then
    (np.2.reschedule now (draws np.1)).map fun pr => (np.1, pr.1)
  else .ok np

/-- The reload handler's final loop (rcon.py lines 320-326): reschedule
every profile satisfying `needsReschedule`; an exception from `reschedule`
(empty `randint` range) propagates.  `draws` supplies the oracle draw per
profile name. -/
def reschedLoop (now : Nat) (draws : String → Nat) : Profiles → Except Unit Profiles
  | [] => .ok []
  | np :: tl =>
    match reschedStep now draws np, reschedLoop now draws tl with
    | .ok x, .ok xs => .ok (x :: xs)
    | .error e, _ => .error e
    | .ok _, .error e => .error e

/-- The state-copy step of the reload handler (rcon.py lines 290-296):
an updated profile (one whose name already existed) receives the old
object's `last_run`, `next_run`, `task`, `running` and `last_log`; a new
profile is left as parsed. -/
def reloadCopyState (old2 : Profiles) (np : String × SolverProfile) :
    String × SolverProfile :=
  match lookupP old2 np.1 with
  | some oldp =>
    (np.1, { np.2 with last_run := oldp.last_run, next_run := oldp.next_run,
                       task := oldp.task, running := oldp.running,
                       last_log := oldp.last_log })
  | none => np

/-- The deferred-profile step of the reload handler (rcon.py lines
299-302): a deferred profile whose carried task handle is present has it
replaced by a migrator task awaiting it. -/
def reloadMigrate (deferred : List String) (np : String × SolverProfile) :
    String × SolverProfile :=
  if np.1 ∈ deferred then
    match np.2.task with
    | some t => (np.1, { np.2 with task := some (TaskId.migrator t) })
    | none => np
  else np

/-- What `RconReloadCommand.process` leaves behind: the scheduler's
profile map, the taken-out old profile objects after the cancellation pass
(the code drops them; the model keeps them so theorems can observe which
old tasks were cancelled), the response sent, and whether the scheduler
wake signal was set. -/
structure ReloadOutcome where
  profiles : Profiles
  oldProfiles : Profiles
  response : Response
  triggerSet : Bool
deriving DecidableEq, Repr

/-- Handler `RconReloadCommand.process` (rcon.py lines 268-336).  `loadResult` is
the outcome of `Scheduler.load_config()` (its exception detail as a
string).  On load failure: error response, store untouched.  Otherwise:
compute removed/added/updated name lists; cancel every old profile's task
unless it is running, collecting as deferred the running ones that survive
into the new config; copy run-state fields from the (post-cancellation)
old objects onto updated profiles; wrap each deferred profile's carried
task in a migrator task; reschedule profiles whose `next_run` fell outside
their window; install the new map, set the wake signal and answer with the
four name lists.  Webhook summary messages are not modelled (no claim
concerns them).  `.error ()` models an exception escaping the handler. -/
def reloadProcess (old : Profiles) (loadResult : Except String Profiles)
    (now : Nat) (draws : String → Nat) : Except Unit ReloadOutcome :=
  match loadResult with
  | .error e =>
    .ok ⟨old, old, .error "reload" "Failed to load new configs" (some e), false⟩
  | .ok newPs =>
    let removed := (old.map Prod.fst).filter fun n => (lookupP newPs n).isNone
    let added := newPs.filter fun np => (lookupP old np.1).isNone
    let updated := newPs.filter fun np => (lookupP old np.1).isSome
    let old2 := old.map fun op => (op.1, if op.2.running then op.2 else op.2.cancel_task)
    let deferred :=
      (old.filter fun op => op.2.running && (lookupP newPs op.1).isSome).map Prod.fst
    let newPs2 := newPs.map (reloadCopyState old2)
    let newPs3 := newPs2.map (reloadMigrate deferred)
    (reschedLoop now draws newPs3).map fun newPs4 =>
      ⟨newPs4, old2,
       .reloadComplete (added.map Prod.fst) (updated.map Prod.fst) removed deferred,
       true⟩

/-- Profile as `Scheduler.load_config` builds it (scheduled.py lines
275-290): `last_run` at the epoch, `next_run`/`task`/`last_log` absent,
`running = False`; used as a base point by the concrete test inputs. -/
def mkProfile (name : String) (s e : Nat) : SolverProfile :=
  { profile_name := name, run_times := ⟨s, e⟩, last_run := 0, next_run := none,
    task := none, running := false, last_log := none }

-- ------------------------------------------------------------------ --
--  Helper lemmas                                                      --
-- ------------------------------------------------------------------ --

theorem midnightOf_mod_usPerSec (now : Nat) : midnightOf now % usPerSec = 0 := by
  unfold midnightOf day_us usPerSec
  omega

theorem midnight_add_div (now x : Nat) :
    (midnightOf now + x) / usPerSec = midnightOf now / usPerSec + x / usPerSec := by
  have h := midnightOf_mod_usPerSec now
  unfold usPerSec at *
  omega

theorem lookupP_mem_keys {l : Profiles} {n : String} {p : SolverProfile}
    (h : lookupP l n = some p) : n ∈ l.map Prod.fst := by
  induction l with
  | nil => simp [lookupP] at h
  | cons hd tl ih =>
    simp only [lookupP] at h
    by_cases hc : hd.1 = n
    · simp [hc]
    · simp only [if_neg hc] at h
      simp [ih h]

theorem map_ok_inv {α β γ : Type} {f : α → β} {x : Except γ α} {b : β}
    (h : x.map f = .ok b) : ∃ a, x = .ok a ∧ b = f a := by
  cases x with
  | ok a =>
    refine ⟨a, rfl, ?_⟩
    simp only [Except.map, Except.ok.injEq] at h
    exact h.symm
  | error e => simp [Except.map] at h

theorem lookupP_map_snd (g : SolverProfile → SolverProfile) (l : Profiles) (n : String) :
    lookupP (l.map fun op => (op.1, g op.2)) n = (lookupP l n).map g := by
  induction l with
  | nil => rfl
  | cons hd tl ih =>
    simp only [List.map_cons, lookupP]
    by_cases hc : hd.1 = n
    · simp [hc]
    · simp [hc, ih]

theorem lookupP_map_dep (f : String × SolverProfile → String × SolverProfile)
    (hf : ∀ np, (f np).1 = np.1) (l : Profiles) (n : String) :
    lookupP (l.map f) n = (findE l n).map fun np => (f np).2 := by
  induction l with
  | nil => rfl
  | cons hd tl ih =>
    simp only [List.map_cons, lookupP, findE]
    rw [hf hd]
    by_cases hc : hd.1 = n
    · simp [hc]
    · simp [hc, ih]

theorem findE_map (f : String × SolverProfile → String × SolverProfile)
    (hf : ∀ np, (f np).1 = np.1) (l : Profiles) (n : String) :
    findE (l.map f) n = (findE l n).map f := by
  induction l with
  | nil => rfl
  | cons hd tl ih =>
    simp only [List.map_cons, findE]
    rw [hf hd]
    by_cases hc : hd.1 = n
    · simp [hc]
    · simp [hc, ih]

theorem findE_key {l : Profiles} {n : String} {np : String × SolverProfile}
    (h : findE l n = some np) : np.1 = n := by
  induction l with
  | nil => simp [findE] at h
  | cons hd tl ih =>
    simp only [findE] at h
    by_cases hc : hd.1 = n
    · rw [if_pos hc] at h
      cases h
      exact hc
    · rw [if_neg hc] at h
      exact ih h

theorem findE_mem {l : Profiles} {n : String} {np : String × SolverProfile}
    (h : findE l n = some np) : np ∈ l := by
  induction l with
  | nil => simp [findE] at h
  | cons hd tl ih =>
    simp only [findE] at h
    by_cases hc : hd.1 = n
    · rw [if_pos hc] at h
      cases h
      exact List.mem_cons_self _ _
    · rw [if_neg hc] at h
      exact List.mem_cons_of_mem _ (ih h)

theorem findE_snd (l : Profiles) (n : String) :
    lookupP l n = (findE l n).map Prod.snd := by
  induction l with
  | nil => rfl
  | cons hd tl ih =>
    simp only [lookupP, findE]
    by_cases hc : hd.1 = n
    · simp [hc]
    · simp [hc, ih]

theorem lookupP_updateP {ps : Profiles} {name : String} {p : SolverProfile}
    (x : SolverProfile) (h : lookupP ps name = some p) :
    lookupP (updateP ps name x) name = some x := by
  induction ps with
  | nil => simp [lookupP] at h
  | cons hd tl ih =>
    simp only [updateP, List.map_cons]
    by_cases hc : hd.1 = name
    · rw [if_pos hc]
      simp [lookupP, hc]
    · rw [if_neg hc]
      simp only [lookupP, if_neg hc]
      simp only [lookupP, if_neg hc] at h
      show lookupP (updateP tl name x) name = some x
      exact ih h

theorem cancel_task_task_none (p : SolverProfile) : p.cancel_task.task = none := by
  unfold SolverProfile.cancel_task
  cases hp : p.task
  · exact hp
  · rfl

theorem reschedule_ok_shape {p : SolverProfile} {now r : Nat} {p' : SolverProfile} {t : Nat}
    (h : p.reschedule now r = .ok (p', t)) : p' = { p with next_run := some t } := by
  unfold SolverProfile.reschedule randint at h
  by_cases hle : (midnightOf now + p.run_times.start) / usPerSec
      ≤ (midnightOf now + p.run_times.«end») / usPerSec
  · simp only [if_pos hle, Except.map, Except.ok.injEq, Prod.mk.injEq] at h
    obtain ⟨h1, h2⟩ := h
    subst h2
    exact h1.symm
  · simp [if_neg hle, Except.map] at h

theorem reschedStep_shape {now : Nat} {draws : String → Nat}
    {np x : String × SolverProfile} (h : reschedStep now draws np = .ok x) :
    x.1 = np.1 ∧ x.2.task = np.2.task := by
  unfold reschedStep at h
  by_cases hc : needsReschedule now np.2
  · rw [if_pos hc] at h
    obtain ⟨pr, hres, hx⟩ := map_ok_inv h
    have hshape : pr.1 = { np.2 with next_run := some pr.2 } :=
      @reschedule_ok_shape _ _ _ pr.1 pr.2 hres
    subst hx
    exact ⟨rfl, by rw [hshape]⟩
  · rw [if_neg hc] at h
    cases h
    exact ⟨rfl, rfl⟩

theorem reschedLoop_lookup (now : Nat) (draws : String → Nat) :
    ∀ (l l' : Profiles), reschedLoop now draws l = .ok l' →
      ∀ (n : String) (q : SolverProfile), lookupP l' n = some q →
        ∃ q₀, lookupP l n = some q₀ ∧ q.task = q₀.task := by
  intro l
  induction l with
  | nil =>
    intro l' h n q hq
    simp only [reschedLoop] at h
    cases h
    simp [lookupP] at hq
  | cons hd tl ih =>
    intro l' h n q hq
    simp only [reschedLoop] at h
    cases hhd : reschedStep now draws hd with
    | error e => rw [hhd] at h; cases h
    | ok x =>
      cases hrest : reschedLoop now draws tl with
      | error e => rw [hhd, hrest] at h; cases h
      | ok xs =>
        rw [hhd, hrest] at h
        cases h
        obtain ⟨hkey, htask⟩ := reschedStep_shape hhd
        simp only [lookupP] at hq ⊢
        by_cases hc : hd.1 = n
        · rw [if_pos hc]
          rw [hkey] at hq
          rw [if_pos hc] at hq
          cases hq
          exact ⟨hd.2, rfl, htask⟩
        · rw [if_neg hc]
          rw [hkey] at hq
          rw [if_neg hc] at hq
          exact ih xs hrest n q hq

theorem lookupP_cancelpass (l : Profiles) (n : String) :
    lookupP (l.map fun op => (op.1, if op.2.running then op.2 else op.2.cancel_task)) n
      = (lookupP l n).map fun q => if q.running then q else q.cancel_task :=
  lookupP_map_snd (fun q => if q.running then q else q.cancel_task) l n

theorem lookupP_updateP_inv {ps : Profiles} {name : String} {p₀ : SolverProfile}
    {x q : SolverProfile} (h : lookupP ps name = some p₀)
    (hq : lookupP (updateP ps name x) name = some q) : q = x := by
  rw [lookupP_updateP x h] at hq
  cases hq
  rfl

theorem reloadCopyState_fst (old2 : Profiles) (np : String × SolverProfile) :
    (reloadCopyState old2 np).1 = np.1 := by
  unfold reloadCopyState
  cases lookupP old2 np.1 <;> rfl

theorem reloadMigrate_fst (d : List String) (np : String × SolverProfile) :
    (reloadMigrate d np).1 = np.1 := by
  unfold reloadMigrate
  by_cases hm : np.1 ∈ d
  · rw [if_pos hm]
    cases np.2.task <;> rfl
  · rw [if_neg hm]

theorem reloadMigrate_of_task_none (d : List String) (np : String × SolverProfile)
    (h : np.2.task = none) : reloadMigrate d np = np := by
  unfold reloadMigrate
  rw [h]
  by_cases hm : np.1 ∈ d
  · rw [if_pos hm]
  · rw [if_neg hm]

theorem task_none_of_not_isSome {p : SolverProfile} (h : ¬p.task.isSome = true) :
    p.task = none := by
  cases hp : p.task with
  | none => rfl
  | some tk => exact absurd (by rw [hp]; rfl) h

theorem start_solver_task_of_none {p : SolverProfile} (tid : Nat) (h : p.task = none) :
    start_solver_task p tid = { p with task := some (TaskId.solver tid) } := by
  unfold start_solver_task
  rw [h]
  rfl

theorem runNow_fresh_handle (ps : Profiles) (name : String) (now tid : Nat)
    (p : SolverProfile) (hl : lookupP ps name = some p)
    (hg : ¬(p.task.isSome = true ∧ p.running = true)) :
    ∃ q, lookupP (runNowProcess ps name now tid).1 name = some q
      ∧ q.task = some (TaskId.solver tid) := by
  simp only [runNowProcess, hl]
  rw [if_neg hg]
  have hpc : (if ({ p with next_run := some now } : SolverProfile).task.isSome
      then ({ p with next_run := some now } : SolverProfile).cancel_task
      else { p with next_run := some now }).task = none := by
    by_cases hts : ({ p with next_run := some now } : SolverProfile).task.isSome
    · rw [if_pos hts]
      exact cancel_task_task_none _
    · rw [if_neg hts]
      exact task_none_of_not_isSome hts
  refine ⟨_, lookupP_updateP _ hl, ?_⟩
  rw [start_solver_task_of_none tid hpc]

theorem rescheduleFinish_handle (ps : Profiles) (name : String) (p p₀ : SolverProfile)
    (now tid : Nat) (hl : lookupP ps name = some p₀) (q : SolverProfile)
    (hq : lookupP (rescheduleFinish ps name p now tid).1 name = some q) :
    q.task = none ∨ q.task = some (TaskId.solver tid) := by
  simp only [rescheduleFinish] at hq
  have hqx := lookupP_updateP_inv hl hq
  subst hqx
  have hpc : (if p.task.isSome then p.cancel_task else p).task = none := by
    by_cases hts : p.task.isSome
    · rw [if_pos hts]
      exact cancel_task_task_none p
    · rw [if_neg hts]
      exact task_none_of_not_isSome hts
  by_cases hw : ((p.next_run.getD 0 : Int) - now < schedule_every_us)
  · right
    rw [if_pos hw, start_solver_task_of_none tid hpc]
  · left
    rw [if_neg hw]
    exact hpc

theorem rescheduleCmd_handle (ps ps' : Profiles) (name : String) (newTime : NewTime)
    (now r tid : Nat) (pn : String) (t : Nat) (q : SolverProfile)
    (h : rescheduleProcess ps name newTime now r tid = .ok (ps', .profileRescheduled pn t))
    (hq : lookupP ps' name = some q) :
    q.task = none ∨ q.task = some (TaskId.solver tid) := by
  cases hl : lookupP ps name with
  | none =>
    simp only [rescheduleProcess, hl] at h
    simp at h
  | some p =>
    by_cases hg : (p.task.isSome = true ∧ p.running = true)
    · simp only [rescheduleProcess, hl, if_pos hg] at h
      simp at h
    · cases hnt : newTime.toAbsolute now with
      | none =>
        simp only [rescheduleProcess, hl, if_neg hg, hnt] at h
        by_cases he : p.run_times.«end» < timeOfDay now
        · rw [if_pos he] at h
          simp at h
        · rw [if_neg he] at h
          obtain ⟨pr, hres, heq⟩ := map_ok_inv h
          have hps' : ps' = (rescheduleFinish ps name pr.1 now tid).1 :=
            congrArg Prod.fst heq
          rw [hps'] at hq
          exact rescheduleFinish_handle ps name pr.1 p now tid hl q hq
      | some dt =>
        simp only [rescheduleProcess, hl, if_neg hg, hnt] at h
        by_cases hpast : dt < now
        · rw [if_pos hpast] at h
          simp at h
        · rw [if_neg hpast] at h
          injection h with heq
          have hps' : ps' = (rescheduleFinish ps name { p with next_run := some dt } now tid).1 :=
            (congrArg Prod.fst heq).symm
          rw [hps'] at hq
          exact rescheduleFinish_handle ps name _ p now tid hl q hq

theorem reload_task_provenance (old newPs : Profiles) (now : Nat) (draws : String → Nat)
    (out : ReloadOutcome) (n : String) (q : SolverProfile)
    (hfresh : ∀ np ∈ newPs, (Prod.snd np).task = none)
    (h : reloadProcess old (.ok newPs) now draws = .ok out)
    (hq : lookupP out.profiles n = some q) :
    q.task = none ∨ ∃ p₀, lookupP old n = some p₀ ∧
      (q.task = p₀.task ∨ ∃ tk, p₀.task = some tk ∧ q.task = some (TaskId.migrator tk)) := by
  simp only [reloadProcess] at h
  obtain ⟨l', hres, hout⟩ := map_ok_inv h
  subst hout
  replace hq : lookupP l' n = some q := hq
  obtain ⟨q3, hq3, htask3⟩ := reschedLoop_lookup now draws _ l' hres n q hq
  rw [lookupP_map_dep _ (fun np => reloadMigrate_fst _ np)] at hq3
  obtain ⟨np2, hfind2, hq3v⟩ := Option.map_eq_some'.mp hq3
  rw [findE_map _ (fun np => reloadCopyState_fst _ np)] at hfind2
  obtain ⟨np1, hfind1, hnp2⟩ := Option.map_eq_some'.mp hfind2
  have hkey1 : np1.1 = n := findE_key hfind1
  have htask1 : np1.2.task = none := hfresh np1 (findE_mem hfind1)
  cases hold : lookupP old n with
  | none =>
    have hnil : lookupP (old.map fun op =>
        (op.1, if op.2.running then op.2 else op.2.cancel_task)) np1.1 = none := by
      rw [hkey1, lookupP_cancelpass, hold]
      rfl
    left
    rw [htask3, ← hq3v, ← hnp2]
    simp only [reloadCopyState, hnil]
    rw [reloadMigrate_of_task_none _ _ htask1]
    exact htask1
  | some p₀ =>
    have hsome : lookupP (old.map fun op =>
        (op.1, if op.2.running then op.2 else op.2.cancel_task)) np1.1
        = some (if p₀.running then p₀ else p₀.cancel_task) := by
      rw [hkey1, lookupP_cancelpass, hold]
      rfl
    simp only [reloadCopyState, hsome] at hnp2
    by_cases hrun : p₀.running
    · rw [if_pos hrun] at hnp2
      cases hp0t : p₀.task with
      | none =>
        left
        rw [htask3, ← hq3v]
        rw [reloadMigrate_of_task_none _ np2 (by rw [← hnp2]; exact hp0t)]
        rw [← hnp2]
        exact hp0t
      | some tk =>
        right
        refine ⟨p₀, rfl, ?_⟩
        rw [htask3, ← hq3v, ← hnp2]
        simp only [reloadMigrate, hp0t]
        by_cases hm : np1.1 ∈ (old.filter fun op =>
            op.2.running && (lookupP newPs op.1).isSome).map Prod.fst
        · rw [if_pos hm]
          right
          exact ⟨tk, rfl, rfl⟩
        · rw [if_neg hm]
          left
          rfl
    · rw [if_neg hrun] at hnp2
      left
      rw [htask3, ← hq3v]
      rw [reloadMigrate_of_task_none _ np2
        (by rw [← hnp2]; exact cancel_task_task_none p₀)]
      rw [← hnp2]
      exact cancel_task_task_none p₀

-- ------------------------------------------------------------------ --
--  C5: at most one live task handle per profile                       --
-- ------------------------------------------------------------------ --

/-- C5: the task handle is a single optional field, and every launching
operation preserves "at most one live handle per profile":
`start_solver_task` is a no-op when a handle is present; the scheduling
loop's launch pass is a no-op when a handle is present; a successful
`run_now` leaves exactly the one freshly created handle (any previous
handle having been cancelled and awaited first); a successful reschedule
command leaves either no handle or exactly the freshly created one; and
after a reload every stored handle is either absent or the old profile's
single handle, possibly wrapped in its migrator task — never an extra
task alongside a tracked one. -/
theorem C5_at_most_one_handle :
    (∀ (p : SolverProfile) (tid : Nat), p.task.isSome = true → start_solver_task p tid = p)
    ∧ (∀ (p : SolverProfile) (now tid : Nat), p.task.isSome = true → launchPass1 p now tid = p)
    ∧ (∀ (ps : Profiles) (name : String) (now tid : Nat) (p : SolverProfile),
        lookupP ps name = some p → ¬(p.task.isSome = true ∧ p.running = true) →
        ∃ q, lookupP (runNowProcess ps name now tid).1 name = some q
          ∧ q.task = some (TaskId.solver tid))
    ∧ (∀ (ps ps' : Profiles) (name : String) (newTime : NewTime) (now r tid : Nat)
        (pn : String) (t : Nat) (q : SolverProfile),
        rescheduleProcess ps name newTime now r tid = .ok (ps', .profileRescheduled pn t) →
        lookupP ps' name = some q →
        q.task = none ∨ q.task = some (TaskId.solver tid))
    ∧ (∀ (old newPs : Profiles) (now : Nat) (draws : String → Nat) (out : ReloadOutcome)
        (n : String) (q : SolverProfile),
        (∀ np ∈ newPs, (Prod.snd np).task = none) →
        reloadProcess old (.ok newPs) now draws = .ok out →
        lookupP out.profiles n = some q →
        q.task = none ∨ ∃ p₀, lookupP old n = some p₀ ∧
          (q.task = p₀.task ∨ ∃ tk, p₀.task = some tk ∧ q.task = some (TaskId.migrator tk))) := by
  refine ⟨?_, ?_, runNow_fresh_handle, rescheduleCmd_handle, reload_task_provenance⟩
  · intro p tid h
    unfold start_solver_task
    rw [if_pos h]
  · intro p now tid h
    cases hnr : p.next_run with
    | none => simp only [launchPass1, hnr]
    | some nr =>
      simp only [launchPass1, hnr]
      rw [if_pos (Or.inl h)]

/-- Witness for C5: each component of `C5_at_most_one_handle` evaluated on
a concrete input. -/
theorem C5_witness :
    (start_solver_task { mkProfile "w" 0 0 with task := some (TaskId.solver 1) } 3
      = { mkProfile "w" 0 0 with task := some (TaskId.solver 1) })
    ∧ (launchPass1 { mkProfile "w" 0 0 with task := some (TaskId.solver 1) } 0 3
      = { mkProfile "w" 0 0 with task := some (TaskId.solver 1) })
    ∧ (∃ q, lookupP (runNowProcess [("c", mkProfile "c" 0 0)] "c" 0 5).1 "c" = some q
        ∧ q.task = some (TaskId.solver 5))
    ∧ (({ mkProfile "d" 0 0 with next_run := some 20, task := some (TaskId.solver 2) } : SolverProfile).task = none
        ∨ ({ mkProfile "d" 0 0 with next_run := some 20, task := some (TaskId.solver 2) } : SolverProfile).task
            = some (TaskId.solver 2))
    ∧ (({ mkProfile "e" 0 0 with task := some (TaskId.migrator (TaskId.solver 9)), running := true } : SolverProfile).task = none
        ∨ ∃ p₀, lookupP [("e", { mkProfile "e" 0 0 with running := true, task := some (TaskId.solver 9) })] "e" = some p₀ ∧
          (({ mkProfile "e" 0 0 with task := some (TaskId.migrator (TaskId.solver 9)), running := true } : SolverProfile).task = p₀.task
            ∨ ∃ tk, p₀.task = some tk ∧
              ({ mkProfile "e" 0 0 with task := some (TaskId.migrator (TaskId.solver 9)), running := true } : SolverProfile).task
                = some (TaskId.migrator tk))) :=
  ⟨C5_at_most_one_handle.1 _ 3 rfl,
   C5_at_most_one_handle.2.1 _ 0 3 rfl,
   C5_at_most_one_handle.2.2.1 [("c", mkProfile "c" 0 0)] "c" 0 5 _ rfl (by decide),
   C5_at_most_one_handle.2.2.2.1 [("d", { mkProfile "d" 0 0 with next_run := some 3 })]
     [("d", { mkProfile "d" 0 0 with next_run := some 20, task := some (TaskId.solver 2) })]
     "d" (.atDT 20) 0 0 2 "d" 20 _ (by decide) (by decide),
   C5_at_most_one_handle.2.2.2.2
     [("e", { mkProfile "e" 0 0 with running := true, task := some (TaskId.solver 9) })]
     [("e", mkProfile "e" 0 0)] 0 (fun _ => 0)
     ⟨[("e", { mkProfile "e" 0 0 with task := some (TaskId.migrator (TaskId.solver 9)), running := true })],
      [("e", { mkProfile "e" 0 0 with running := true, task := some (TaskId.solver 9) })],
      .reloadComplete [] ["e"] [] ["e"], true⟩
     "e" _ (by decide) (by decide) (by decide)⟩

-- ------------------------------------------------------------------ --
--  C1: reload of a removed, still-running profile                     --
-- ------------------------------------------------------------------ --

/-- C1 counterexample: one profile `"a"` that is running, removed by the
reload (new config is empty).  Its task is indeed kept running (the old
object is untouched by the cancellation pass), but the response reports
`"a"` under `removed_profiles` and the `deferred_profiles` list is empty —
the opposite of what the claim states about the reported lists. -/
theorem C1_counterexample :
    ({ mkProfile "a" 0 0 with running := true, task := some (TaskId.solver 7) } : SolverProfile).running = true
    ∧ reloadProcess
        [("a", { mkProfile "a" 0 0 with running := true, task := some (TaskId.solver 7) })]
        (.ok []) 0 (fun _ => 0) =
      .ok ⟨[], [("a", { mkProfile "a" 0 0 with running := true, task := some (TaskId.solver 7) })],
           .reloadComplete [] [] ["a"] [], true⟩ := by
  decide

/-- C1 (amended): a profile that is running and absent from the new
configuration is reported in the `removed` list and **not** in the
`deferred` list (only running profiles that survive into the new
configuration are deferred), and the reload does keep its task running:
the cancellation pass leaves the old profile object — its handle and
`running` flag included — completely untouched. -/
theorem C1_removed_running_profile (old newPs : Profiles) (now : Nat)
    (draws : String → Nat) (name : String) (p : SolverProfile) (out : ReloadOutcome)
    (hl : lookupP old name = some p) (hr : p.running = true)
    (hn : lookupP newPs name = none)
    (h : reloadProcess old (.ok newPs) now draws = .ok out) :
    name ∈ out.response.removedOf
    ∧ name ∉ out.response.deferredOf
    ∧ lookupP out.oldProfiles name = some p := by
  simp only [reloadProcess] at h
  obtain ⟨l', hres, hout⟩ := map_ok_inv h
  subst hout
  refine ⟨?_, ?_, ?_⟩
  · show name ∈ Response.removedOf (.reloadComplete _ _ _ _)
    simp only [Response.removedOf]
    apply List.mem_filter.mpr
    refine ⟨lookupP_mem_keys hl, ?_⟩
    simp [hn]
  · show name ∉ Response.deferredOf (.reloadComplete _ _ _ _)
    simp only [Response.deferredOf]
    intro hmem
    obtain ⟨op, hop, hfst⟩ := List.mem_map.mp hmem
    have h2 := (List.mem_filter.mp hop).2
    rw [hfst, hn] at h2
    simp at h2
  · show lookupP (old.map fun op => (op.1, if op.2.running then op.2 else op.2.cancel_task)) name
        = some p
    rw [lookupP_cancelpass, hl]
    simp [hr]

/-- Witness for C1: the removed-while-running profile of
`C1_counterexample`, run through `C1_removed_running_profile`. -/
theorem C1_witness :
    "a" ∈ (Response.reloadComplete [] [] ["a"] []).removedOf
    ∧ "a" ∉ (Response.reloadComplete [] [] ["a"] []).deferredOf
    ∧ lookupP [("a", { mkProfile "a" 0 0 with running := true, task := some (TaskId.solver 7) })] "a"
        = some { mkProfile "a" 0 0 with running := true, task := some (TaskId.solver 7) } :=
  C1_removed_running_profile
    [("a", { mkProfile "a" 0 0 with running := true, task := some (TaskId.solver 7) })]
    [] 0 (fun _ => 0) "a"
    { mkProfile "a" 0 0 with running := true, task := some (TaskId.solver 7) }
    ⟨[], [("a", { mkProfile "a" 0 0 with running := true, task := some (TaskId.solver 7) })],
     .reloadComplete [] [] ["a"] [], true⟩
    rfl rfl rfl (by decide)

-- ------------------------------------------------------------------ --
--  C4: cancel_task postcondition                                      --
-- ------------------------------------------------------------------ --

/-- C4 counterexample: on the concrete inconsistent state `task = None`,
`running = True`, `cancel_task` returns with `running` still `true`, so it
does not leave `task_handle` absent and `running = false` "including the
case where no task handle was present". -/
theorem C4_counterexample :
    ({ mkProfile "a" 0 0 with running := true } : SolverProfile).task = none
    ∧ ({ mkProfile "a" 0 0 with running := true } : SolverProfile).cancel_task.running = true := by
  decide

/-- C4 (amended): when a task handle is present, `cancel_task` returns
with `task` absent and `running = false`; when no handle is present, it
returns immediately leaving the profile (in particular `running`)
unchanged. -/
theorem C4_cancel_task_consistent (p : SolverProfile) :
    (p.task.isSome → p.cancel_task.task = none ∧ p.cancel_task.running = false)
    ∧ (p.task = none → p.cancel_task = p) := by
  constructor
  · intro h
    match hp : p.task with
    | some t => simp [SolverProfile.cancel_task, hp]
    | none => rw [hp] at h; simp at h
  · intro h
    simp [SolverProfile.cancel_task, h]

/-- Witness for C4: both branches of `C4_cancel_task_consistent`
evaluated on concrete profiles. -/
theorem C4_witness :
    (({ mkProfile "b" 0 0 with task := some (.solver 7), running := true } : SolverProfile).cancel_task.task = none
      ∧ ({ mkProfile "b" 0 0 with task := some (.solver 7), running := true } : SolverProfile).cancel_task.running = false)
    ∧ (mkProfile "b" 0 0).cancel_task = mkProfile "b" 0 0 :=
  ⟨(C4_cancel_task_consistent { mkProfile "b" 0 0 with task := some (.solver 7), running := true }).1 (by decide),
   (C4_cancel_task_consistent (mkProfile "b" 0 0)).2 (by decide)⟩

-- ------------------------------------------------------------------ --
--  C7: begin-of-run mutation is atomic                                --
-- ------------------------------------------------------------------ --

/-- C7: in `solver_task`, the statements clearing `next_run`, setting
`last_run = now` and setting `running = true` are exactly the three
statements directly following the pre-start sleep; none of them is a
suspension point, executing through them yields the claimed field values
while leaving the task handle alone, the only suspension attempted so far
is the sleep itself, and all of the run's work (`awaitWorkload`) comes
later in the program. -/
theorem C7_begin_run_atomic (env : TaskEnv) (p : SolverProfile) :
    solverProgram.take 4 = [.awaitSleep, .clearNextRun, .setLastRunNow, .setRunningTrue]
    ∧ (Stmt.clearNextRun.isSuspension = false ∧ Stmt.setLastRunNow.isSuspension = false
        ∧ Stmt.setRunningTrue.isSuspension = false)
    ∧ ((solverProgram.take 4).foldl (exec1 env) ⟨p, [], false⟩).profile =
        { p with next_run := none, last_run := env.now, running := true }
    ∧ ((solverProgram.take 4).foldl (exec1 env) ⟨p, [], false⟩).attempted = [.awaitSleep]
    ∧ Stmt.awaitWorkload ∈ solverProgram.drop 4 := by
  refine ⟨rfl, ⟨rfl, rfl, rfl⟩, rfl, rfl, by decide⟩

-- ------------------------------------------------------------------ --
--  C3: a persistence failure aborts the run-completion sequence       --
-- ------------------------------------------------------------------ --

/-- C3 evaluation: with a signed-in session whose
`db.log_session_timing` call raises, the exception escapes `solver_task`
before the outcome notification: the webhook outcome message is never
attempted and `task`/`running` are left set (teardown aborted).  With the
same run and a successful persistence call, the teardown does complete.
This contradicts the claim that the completion sequence runs to the end
even when the persistence call raises. -/
theorem C3_persist_failure_aborts_teardown :
    (runSolverTask ⟨1000, "log", true, false, true, false, false⟩
        { mkProfile "a" 0 0 with task := some (.solver 0), next_run := some 900 }).raised = true
    ∧ (runSolverTask ⟨1000, "log", true, false, true, false, false⟩
        { mkProfile "a" 0 0 with task := some (.solver 0), next_run := some 900 }).profile.task = some (.solver 0)
    ∧ (runSolverTask ⟨1000, "log", true, false, true, false, false⟩
        { mkProfile "a" 0 0 with task := some (.solver 0), next_run := some 900 }).profile.running = true
    ∧ Stmt.awaitNotifyOutcome ∉ (runSolverTask ⟨1000, "log", true, false, true, false, false⟩
        { mkProfile "a" 0 0 with task := some (.solver 0), next_run := some 900 }).attempted
    ∧ (runSolverTask ⟨1000, "log", true, false, false, false, false⟩
        { mkProfile "a" 0 0 with task := some (.solver 0), next_run := some 900 }).profile.task = none
    ∧ (runSolverTask ⟨1000, "log", true, false, false, false, false⟩
        { mkProfile "a" 0 0 with task := some (.solver 0), next_run := some 900 }).profile.running = false := by
  decide

-- ------------------------------------------------------------------ --
--  C9: reload load-failure leaves the store untouched                 --
-- ------------------------------------------------------------------ --

/-- C9: when loading/parsing the new configuration fails, the reload
handler sends an error response carrying the failure detail and makes no
change at all: the profile store (and every profile in it) is returned
exactly as it was, no task is cancelled, and the wake signal is not set. -/
theorem C9_load_failure_store_untouched (old : Profiles) (e : String)
    (now : Nat) (draws : String → Nat) :
    reloadProcess old (.error e) now draws =
      .ok ⟨old, old, .error "reload" "Failed to load new configs" (some e), false⟩ := rfl

-- ------------------------------------------------------------------ --
--  C10: reschedule on an inverted window                              --
-- ------------------------------------------------------------------ --

/-- C10 counterexample: a window whose start (`00:00:00.600000`) is after
its end (`00:00:00.400000`); `int()` truncates both timestamps to the same
whole second, so `random.randint` sees a non-empty range and `reschedule`
returns a value instead of raising. -/
theorem C10_counterexample :
    (mkProfile "a" 600000 400000).run_times.«end» < (mkProfile "a" 600000 400000).run_times.start
    ∧ (mkProfile "a" 600000 400000).reschedule 0 0 =
        .ok ({ mkProfile "a" 600000 400000 with next_run := some 0 }, 0) := by
  decide

/-- C10 (amended): `reschedule` raises (empty `randint` range) exactly
when the window start is after the window end once both are truncated to
whole seconds — not for every window with `start > end`. -/
theorem C10_reschedule_raises_iff (p : SolverProfile) (now r : Nat) :
    p.reschedule now r = .error () ↔
      p.run_times.«end» / usPerSec < p.run_times.start / usPerSec := by
  have h1 := midnight_add_div now p.run_times.start
  have h2 := midnight_add_div now p.run_times.«end»
  by_cases h : (midnightOf now + p.run_times.start) / usPerSec
      ≤ (midnightOf now + p.run_times.«end») / usPerSec
  · simp only [SolverProfile.reschedule, randint, if_pos h, Except.map]
    constructor
    · intro hc; cases hc
    · omega
  · simp only [SolverProfile.reschedule, randint, if_neg h, Except.map]
    constructor
    · intro _; omega
    · intro _; trivial

-- ------------------------------------------------------------------ --
--  C6: reschedule stores a time inside the window                     --
-- ------------------------------------------------------------------ --

/-- C6 counterexample: a window `[00:00:00.500000, 00:00:01.500000]`
(start ≤ end, `next_run` unset); `int()` truncation lets `randint` draw
the whole second `0`, so the stored `next_run` lies strictly before today's
window start. -/
theorem C6_counterexample :
    (mkProfile "a" 500000 1500000).next_run = none
    ∧ (mkProfile "a" 500000 1500000).run_times.start ≤ (mkProfile "a" 500000 1500000).run_times.«end»
    ∧ (mkProfile "a" 500000 1500000).reschedule 0 0 =
        .ok ({ mkProfile "a" 500000 1500000 with next_run := some 0 }, 0)
    ∧ 0 < midnightOf 0 + (mkProfile "a" 500000 1500000).run_times.start := by
  decide

/-- C6 (amended): for a window with `start ≤ end`, `reschedule` stores a
`next_run` within `[today start truncated to a whole second, today end]`
— so within `[today start, today end]` exactly when the window start has
no sub-second component. -/
theorem C6_reschedule_within_window (p : SolverProfile) (now r : Nat)
    (hwin : p.run_times.start ≤ p.run_times.«end»)
    (p' : SolverProfile) (t : Nat)
    (h : p.reschedule now r = .ok (p', t)) :
    p' = { p with next_run := some t }
    ∧ midnightOf now + p.run_times.start / usPerSec * usPerSec ≤ t
    ∧ t ≤ midnightOf now + p.run_times.«end» := by
  have hle : (midnightOf now + p.run_times.start) / usPerSec
      ≤ (midnightOf now + p.run_times.«end») / usPerSec :=
    Nat.div_le_div_right (Nat.add_le_add_left hwin _)
  simp only [SolverProfile.reschedule, randint, if_pos hle, Except.map,
    Except.ok.injEq, Prod.mk.injEq] at h
  obtain ⟨hp', ht⟩ := h
  subst hp' ht
  refine ⟨rfl, ?_, ?_⟩
  · have h3 : (midnightOf now + p.run_times.start) / usPerSec * usPerSec
        ≤ ((midnightOf now + p.run_times.start) / usPerSec + r %
            ((midnightOf now + p.run_times.«end») / usPerSec
              - (midnightOf now + p.run_times.start) / usPerSec + 1)) * usPerSec :=
      Nat.mul_le_mul_right _ (Nat.le_add_right _ _)
    have h4 : (midnightOf now + p.run_times.start) / usPerSec * usPerSec
        = midnightOf now + p.run_times.start / usPerSec * usPerSec := by
      rw [midnight_add_div, Nat.add_mul,
        Nat.div_mul_cancel (Nat.dvd_of_mod_eq_zero (midnightOf_mod_usPerSec now))]
    omega
  · have hmod : r % ((midnightOf now + p.run_times.«end») / usPerSec
        - (midnightOf now + p.run_times.start) / usPerSec + 1)
        ≤ (midnightOf now + p.run_times.«end») / usPerSec
          - (midnightOf now + p.run_times.start) / usPerSec :=
      Nat.le_of_lt_succ (Nat.mod_lt r (Nat.succ_pos _))
    have h5 : ((midnightOf now + p.run_times.start) / usPerSec + r %
          ((midnightOf now + p.run_times.«end») / usPerSec
            - (midnightOf now + p.run_times.start) / usPerSec + 1)) * usPerSec
        ≤ (midnightOf now + p.run_times.«end») / usPerSec * usPerSec :=
      Nat.mul_le_mul_right _ (by omega)
    have h6 : (midnightOf now + p.run_times.«end») / usPerSec * usPerSec
        ≤ midnightOf now + p.run_times.«end» := Nat.div_mul_le_self _ _
    omega

/-- Witness for C6: a whole-second window `[00:00:00, 00:00:02]` at the
epoch with draw `1`; the theorem applies and the stored time is `00:00:01`. -/
theorem C6_witness :
    ({ mkProfile "w" 0 2000000 with next_run := some 1000000 } : SolverProfile) =
        { mkProfile "w" 0 2000000 with next_run := some 1000000 }
    ∧ midnightOf 0 + (mkProfile "w" 0 2000000).run_times.start / usPerSec * usPerSec ≤ 1000000
    ∧ 1000000 ≤ midnightOf 0 + (mkProfile "w" 0 2000000).run_times.«end» :=
  C6_reschedule_within_window (mkProfile "w" 0 2000000) 0 1 (by decide)
    { mkProfile "w" 0 2000000 with next_run := some 1000000 } 1000000 (by decide)

-- ------------------------------------------------------------------ --
--  C2: rescheduling a running profile                                 --
-- ------------------------------------------------------------------ --

/-- C2 counterexample: a profile with `running = true` but `task = None`
(the inconsistent state the scheduling pass explicitly checks for): the
reschedule command does not error — it stores the new time, launches a
task, and answers `profile_rescheduled`, mutating `next_run` from `5` to
`10`. -/
theorem C2_counterexample :
    ({ mkProfile "a" 0 86400000000 with running := true, next_run := some 5 } : SolverProfile).running = true
    ∧ rescheduleProcess
        [("a", { mkProfile "a" 0 86400000000 with running := true, next_run := some 5 })]
        "a" (.atDT 10) 0 0 0 =
      .ok ([("a",
              { mkProfile "a" 0 86400000000 with
                  running := true, next_run := some 10, task := some (.solver 0) })],
           .profileRescheduled "a" 10) := by
  decide

/-- C2 (amended): rescheduling errors and leaves the store (hence
`next_run`) unchanged whenever the profile has a task handle **and**
`running = true`; `running = true` alone (with no handle) does not trigger
the guard. -/
theorem C2_reschedule_running_errors (ps : Profiles) (name : String) (nt : NewTime)
    (now r tid : Nat) (p : SolverProfile)
    (hl : lookupP ps name = some p) (ht : p.task.isSome = true) (hr : p.running = true) :
    rescheduleProcess ps name nt now r tid =
      .ok (ps, .error "reschedule" "Cannot reschedule a running profile" none) := by
  simp only [rescheduleProcess, hl]
  rw [if_pos ⟨ht, hr⟩]

/-- Witness for C2: a concrete profile with a handle and `running = true`;
the reschedule command errors and returns the store unchanged. -/
theorem C2_witness :
    rescheduleProcess [("b", { mkProfile "b" 0 0 with task := some (.solver 1), running := true })]
        "b" .auto 0 0 0 =
      .ok ([("b", { mkProfile "b" 0 0 with task := some (.solver 1), running := true })],
           .error "reschedule" "Cannot reschedule a running profile" none) :=
  C2_reschedule_running_errors _ "b" .auto 0 0 0 _ rfl rfl rfl

-- ------------------------------------------------------------------ --
--  C8: missed-window outcome                                          --
-- ------------------------------------------------------------------ --

/-- C8: a profile not yet handled today, with `next_run` absent and the
window end already past, gets `last_run = now`, a missed-window warning,
and nothing else: `next_run` stays absent and no reschedule happens (the
pass continues to the next profile). -/
theorem C8_missed_window (p : SolverProfile) (now : Nat) (outcome : AwaitOutcome) (r : Nat)
    (hday : p.last_run < midnightOf now)
    (hnr : p.next_run = none)
    (hend : p.run_times.«end» < timeOfDay now) :
    scheduleStep p now outcome r =
      .ok ({ p with last_run := now }, [.missedWindow p.profile_name]) := by
  unfold scheduleStep
  rw [if_neg (by omega), if_pos ⟨hnr, hend⟩]

/-- Witness for C8, the spec's scenario: window `[10:00, 10:05]`, process
time `10:10` on day 1, `next_run` absent. -/
theorem C8_witness :
    scheduleStep (mkProfile "P" 36000000000 36300000000) 123000000000 .completed 0 =
      .ok ({ mkProfile "P" 36000000000 36300000000 with last_run := 123000000000 },
           [.missedWindow "P"]) :=
  C8_missed_window _ _ _ _ (by decide) rfl (by decide)
